import Mathlib

/-!
Shallow embedding of the notification core of wis2box-api:

* `src/wis2box_api/sns_listener.py` — the inbound event relay (AWS SNS
  webhook endpoint): canonical-string construction, certificate-URL gate,
  signature verification and S3-record normalization.
* `src/wis2box_api/wis2box/handle.py` — the result aggregator and
  notification dispatcher (`DataHandler.process_items`,
  `DataHandler.send_data_notification_request`).
* `src/wis2box_api/plugins/process/csv2bufr.py` — the per-item station
  identity / geolocation validation inside `CSVPublishProcessor.execute`.

External collaborators (the `requests` HTTP client, the `cryptography`
X.509/RSA primitives, base64, the MQTT broker, and geopy's geodesic
distance) are abstracted as oracle parameters; fallible Python code is
embedded as `Except PyExc`-valued functions so uncaught exceptions are
explicit values.
-/

/-- Python exceptions that can escape the embedded code paths. -/
inductive PyExc where
  | keyError (key : String)
  | valueError (msg : String)
  | attributeError
  | typeError
  | binasciiError
  | invalidSignature
  deriving DecidableEq, Repr

/-- A JSON object with string values, as an insertion-ordered association
list (a Python `dict`; keys are unique). -/
abbrev Dict := List (String × String)

/-- Python `msg[k]` / `k in msg`: the binding of key `k`, if any. -/
def dget (msg : Dict) (k : String) : Option String :=
  (msg.find? (fun p => p.1 == k)).map (fun p => p.2)

/-- Field order used by `build_string_to_sign` for a `Notification`
(sns_listener.py lines 51-54): `Subject` is included only when present. -/
def fieldList (msg : Dict) : List String :=
  ["Message", "MessageId"]
    ++ (if (dget msg "Subject").isSome then ["Subject"] else [])
    ++ ["Timestamp", "TopicArn", "Type"]

/-- The `''.join(f'{f}\n{msg[f]}\n' for f in fields)` accumulation: a
missing field raises `KeyError`. -/
def joinFields (msg : Dict) (acc : String) : List String → Except PyExc String
  | [] => .ok acc
  | f :: rest =>
    match dget msg f with
    | none => .error (.keyError f)
    | some v => joinFields msg (acc ++ f ++ "\n" ++ v ++ "\n") rest

/-- `build_string_to_sign` (sns_listener.py lines 48-58): the canonical
string AWS SNS signed; a non-`Notification` type raises `ValueError`. -/
def build_string_to_sign (msg : Dict) : Except PyExc String :=
  match dget msg "Type" with
  | none => .error (.keyError "Type")
  | some t =>
    if t = "Notification" then joinFields msg "" (fieldList msg)
    else .error (.valueError ("Unsupported message type: " ++ t))

/-- One `{field}\n{value}\n` block of the canonical string. -/
def sigBlock (f v : String) : String := f ++ "\n" ++ v ++ "\n"

/-- Python `s.startswith(p)`, on the character level. -/
def str_startswith (s p : String) : Bool := p.data.isPrefixOf s.data

/-- Python `s.endswith(p)`, on the character level. -/
def str_endswith (s p : String) : Bool := p.data.isSuffixOf s.data

/-- The certificate-URL allow-list check (sns_listener.py lines 68-69):
`cert_url.startswith('https://sns.')` and
`cert_url.endswith('.amazonaws.com/SimpleNotificationService.pem')`. -/
def cert_url_allowed (u : String) : Bool :=
  str_startswith u "https://sns." &&
    str_endswith u ".amazonaws.com/SimpleNotificationService.pem"

/-- The URL pattern named by the spec,
`https://sns.*.amazonaws.com/SimpleNotificationService.pem`: this
definition follows the spec's words (a refinement reference point), to be
compared with the code's `cert_url_allowed`. -/
def matchesSnsPattern (u : String) : Prop :=
  ∃ mid, u = "https://sns." ++ mid ++ ".amazonaws.com/SimpleNotificationService.pem"

/-- One AWS S3 record inside the nested `Message` JSON: the fields the
relay reads, each optional because the code uses `dict.get`. -/
structure S3Rec where
  eventSource : Option String
  eventName : Option String
  bucketName : Option String
  objectKey : Option String
  deriving DecidableEq, Repr

/-- External effects reached by the relay (HTTP, X.509 parsing, base64
validity, RSA verification, the nested JSON parse, the broker, the bucket
allow-list from env): all are outside the embedded sources, so they are
oracle parameters. -/
structure SnsWorld where
  httpGet : String → Except PyExc Unit
  b64Ok : String → Bool
  sigValid : String → String → Bool
  parseMessage : String → Except PyExc (Option (List S3Rec))
  storagePublishOk : Bool
  storageIncoming : String
  storagePublic : String

/-- Result of running `verify_sns_signature`: the URLs fetched over the
network, and either the returned string or an uncaught exception. -/
structure VerifyRun where
  fetched : List String
  outcome : Except PyExc String
  deriving Repr

/-- `verify_sns_signature` (sns_listener.py lines 61-86). Notes bound to
the source: `msg['SigningCertURL']` / `msg['Signature']` raise `KeyError`
when absent; `base64.b64decode` raises `binascii.Error` on invalid input;
and the `cryptography` library's `pubkey.verify` returns `None` on a valid
signature and raises `InvalidSignature` otherwise, so the code's
`if pubkey.verify(...)` takes the `else` branch exactly when the signature
is valid. -/
def verify_sns_signature (w : SnsWorld) (msg : Dict) : VerifyRun :=
  match dget msg "SigningCertURL" with
  | none => ⟨[], .error (.keyError "SigningCertURL")⟩
  | some cert_url =>
    match dget msg "Signature" with
    | none => ⟨[], .error (.keyError "Signature")⟩
    | some signature =>
      if cert_url_allowed cert_url = false then ⟨[], .ok "Invalid SigningCertURL"⟩
      else
        match w.httpGet cert_url with
        | .error e => ⟨[cert_url], .error e⟩
        | .ok _ =>
          if w.b64Ok signature = false then ⟨[cert_url], .error .binasciiError⟩
          else
            match build_string_to_sign msg with
            | .error e => ⟨[cert_url], .error e⟩
            | .ok s =>
              if w.sigValid signature s then ⟨[cert_url], .ok "Signature verification failed"⟩
              else ⟨[cert_url], .error .invalidSignature⟩

/-- The MinIO-style storage event built by the relay. -/
structure StorageMsg where
  eventName : String
  key : String
  deriving DecidableEq, Repr

/-- Python string interpolation of a possibly-`None` value. -/
def render_opt (o : Option String) : String :=
  match o with
  | none => "None"
  | some s => s

/-- `event_name.replace('ObjectCreated', 's3:ObjectCreated').replace('ObjectRemoved', 's3:ObjectRemoved')`
(sns_listener.py lines 138-139). -/
def map_event_name (e : String) : String :=
  (e.replace "ObjectCreated" "s3:ObjectCreated").replace "ObjectRemoved" "s3:ObjectRemoved"

/-- The `for record in aws_s3_event['Records']` loop (sns_listener.py lines
125-141): non-`aws:s3` records are skipped, the last matching record wins;
a record with no `key` raises `AttributeError` (`None.replace`), as does a
missing `eventName` when the storage message is built. The second
component is the loop variable `bucket_name`. -/
def records_loop (recs : List S3Rec) (msg : Option StorageMsg) (bucket : Option String) :
    Except PyExc (Option StorageMsg × Option String) :=
  match recs with
  | [] => .ok (msg, bucket)
  | r :: rest =>
    if r.eventSource ≠ some "aws:s3" then records_loop rest msg bucket
    else
      match r.objectKey with
      | none => .error .attributeError
      | some k =>
        match r.eventName with
        | none => .error .attributeError
        | some en =>
          records_loop rest
            (some ⟨map_event_name en, render_opt r.bucketName ++ "/" ++ (k.replace "%3A" ":")⟩)
            r.bucketName

/-- Result of running the HTTP handler: the URLs fetched over the network,
and either the `(status, body)` pair it returned or an uncaught
exception. -/
structure HandlerRun where
  fetched : List String
  response : Except PyExc (Nat × String)
  deriving Repr

/-- The `Notification` branch of `sns_listener` (sns_listener.py lines
114-169): verify the signature, parse the nested `Message`, normalize the
S3 records, check the bucket allow-list, publish the storage event. -/
def notification_branch (w : SnsWorld) (data : Dict) : HandlerRun :=
  let v := verify_sns_signature w data
  match v.outcome with
  | .error e => ⟨v.fetched, .error e⟩
  | .ok r =>
    if r ≠ "Signature verified" then ⟨v.fetched, .ok (400, "SNS signature verification failed")⟩
    else
      match dget data "Message" with
      | none => ⟨v.fetched, .error .typeError⟩
      | some mstr =>
        match w.parseMessage mstr with
        | .error e => ⟨v.fetched, .error e⟩
        | .ok none => ⟨v.fetched, .ok (400, "No S3 records found")⟩
        | .ok (some recs) =>
          match records_loop recs none none with
          | .error e => ⟨v.fetched, .error e⟩
          | .ok (none, _) => ⟨v.fetched, .ok (400, "No valid S3 records found")⟩
          | .ok (some _, bucket) =>
            match bucket with
            | none => ⟨v.fetched, .ok (400, "Invalid bucket")⟩
            | some b =>
              if b ≠ w.storageIncoming ∧ b ≠ w.storagePublic then
                ⟨v.fetched, .ok (400, "Invalid bucket")⟩
              else if w.storagePublishOk then
                ⟨v.fetched, .ok (200, "Published S3 event on internal broker")⟩
              else
                ⟨v.fetched, .ok (500, "Error publishing on internal broker")⟩

/-- `sns_listener` (sns_listener.py lines 89-171). The request body is
given as the outcome of `json.loads` (a parsed object, or a parse error,
which the code catches and turns into a 400). -/
def sns_listener (w : SnsWorld) (body : Except String Dict) : HandlerRun :=
  match body with
  | .error e => ⟨[], .ok (400, "Error " ++ e ++ " parsing JSON")⟩
  | .ok data =>
    if data.isEmpty ∨ (dget data "Type").isNone then ⟨[], .ok (400, "Missing SNS Type")⟩
    else
      match dget data "Type" with
      | some "SubscriptionConfirmation" =>
        (match dget data "SubscribeURL" with
        | some u =>
          (match w.httpGet u with
          | .error e => ⟨[u], .error e⟩
          | .ok _ => ⟨[u], .ok (200, "subscription confirmed")⟩)
        | none => ⟨[], .ok (400, "Missing SubscribeURL")⟩)
      | some "Notification" => notification_branch w data
      | _ => ⟨[], .ok (400, "Unhandled message type")⟩

/-! ## Aggregator and validator data model (handle.py / csv2bufr.py) -/

/-- Payload bytes (Python `bytes`). -/
abbrev Bytes := List Nat

/-- `item['_meta']['result']`: the transform's per-item result block; every
field is optional because the code indexes into it (`KeyError` when
absent). -/
structure MetaResult where
  code : Option Int
  message : Option String
  errors : Option (List String)
  warnings : Option (List String)
  deriving DecidableEq, Repr

/-- A GeoJSON-style geometry dict; only `coordinates` is read. -/
structure Geometry where
  coordinates : Option (List Rat)
  deriving DecidableEq, Repr

/-- `item['_meta']['properties']`: the fields the core reads. -/
structure MetaProps where
  wsi : Option String
  datetime : Option String
  deriving DecidableEq, Repr

/-- `item['_meta']`. -/
structure Meta where
  id : Option String
  properties : Option MetaProps
  geometry : Option Geometry
  result : Option MetaResult
  deriving DecidableEq, Repr

/-- One transform-output item: the non-`_meta`/`errors`/`warnings` keys of
the dict (format payloads, in dict order, value `None` allowed) plus the
three special keys, each optional because the code tests `'errors' in
record` etc. -/
structure Item where
  payloads : List (String × Option Bytes)
  meta : Option Meta
  errors : Option (List String)
  warnings : Option (List String)
  deriving DecidableEq, Repr

/-- `item['_meta']` (raises `KeyError` when absent). -/
def metaOf (it : Item) : Except PyExc Meta :=
  match it.meta with
  | none => .error (.keyError "_meta")
  | some m => .ok m

/-- `item['_meta']['properties']` (raises `KeyError` when absent). -/
def propsOf (m : Meta) : Except PyExc MetaProps :=
  match m.properties with
  | none => .error (.keyError "properties")
  | some p => .ok p

/-- The keys of `DATA_OBJECT_MIMETYPES` (handle.py lines 37-43). -/
def mimeKeys : List String := ["bufr4", "grib2", "grib", "cap", "geojson"]

/-- `any(key in record for key in DATA_OBJECT_MIMETYPES)` (handle.py line
104): does the record carry a recognized format key (even with value
`None`). -/
def hasFmtKey (it : Item) : Bool :=
  mimeKeys.any (fun k => it.payloads.any (fun p => p.1 == k))

/-- The `record['errors']` list collected by the first loop (handle.py
lines 109-111); nothing when the key is absent. -/
def itemErrors (it : Item) : List String := it.errors.getD []

/-- The `record['warnings']` list collected by the first loop (handle.py
lines 112-114). -/
def itemWarnings (it : Item) : List String := it.warnings.getD []

/-- Python truthiness of the `wsi` variable (`None` and `''` are falsy). -/
def wsiTruthy : Option String → Bool
  | none => false
  | some s => s != ""

/-- Modelled from the spec: `wis2box_api/wis2box/station.py` is not among
the sources; §3 and §6 of the spec describe the station registry as
`StationRecord` entries (`wigosStationIdentifier`, `geometry: Point`)
offering exactly lookup-by-WSI and geometry-by-WSI. -/
abbrev StationRegistry := List (String × Geometry)

/-- Modelled from the spec: `Stations.check_valid_wsi` — is the identifier
present in the station registry. -/
def check_valid_wsi (reg : StationRegistry) (w : String) : Bool :=
  reg.any (fun r => r.1 == w)

/-- Modelled from the spec: `Stations.get_geometry` — the registry
geometry for a WIGOS identifier. -/
def get_geometry (reg : StationRegistry) (w : String) : Option Geometry :=
  (reg.find? (fun r => r.1 == w)).map (fun r => r.2)

/-- The geodesic-distance collaborator: geopy's
`geodesic(a, b).meters` and the Python rendering `f'{round(d, 2)}'` of the
resulting float, both outside the sources. -/
structure GeoCtx where
  geodesicMeters : (Rat × Rat) → (Rat × Rat) → Rat
  render2 : Rat → String

/-- `f'Station {wsi} not in station list; skipping'` (csv2bufr.py line
206). -/
def not_in_list_msg (w : String) : String :=
  "Station " ++ w ++ " not in station list; skipping"

/-- `f'Station {wsi}: location reported in data is {round(distance_meters,2)} meters from station-location; skipping'`
(csv2bufr.py line 225); `d` is the rendered rounded distance. -/
def distance_msg (w : String) (d : String) : String :=
  "Station " ++ w ++ ": location reported in data is " ++ d ++
    " meters from station-location; skipping"

/-- Errors carried in `item['_meta']['result']['errors']` (csv2bufr.py
lines 197-200). -/
def metaResErrors (m : Meta) : List String :=
  match m.result with
  | some r => r.errors.getD []
  | none => []

/-- Warnings carried in `item['_meta']['result']['warnings']` (csv2bufr.py
lines 201-203). -/
def metaResWarnings (m : Meta) : List String :=
  match m.result with
  | some r => r.warnings.getD []
  | none => []

/-- Python `del item[k]` on the payload dict (keys are unique, so
key-filtering the association list is the deletion). -/
def delKey (k : String) (l : List (String × Option Bytes)) :
    List (String × Option Bytes) :=
  l.filter (fun p => p.1 != k)

/-- Per-item validation inside `CSVPublishProcessor.execute` (csv2bufr.py
lines 191-234): collect the `_meta.result` errors/warnings, then the
station checks. An unknown station or an over-threshold distance appends
one warning and deletes `bufr4`; an item with a falsy identifier skips
both checks. When the station is known, the Python code builds the list
`[None not in [geo_data, geo_station], None not in [geo_data.get(...), geo_station.get(...)]]`
eagerly, so a `None` geometry raises `AttributeError`; unpacking a
too-short coordinate slice raises `ValueError`. -/
def execute_validate_item (reg : StationRegistry) (threshold : Rat)
    (geo : GeoCtx) (item : Item) : Except PyExc Item := do
  let m ← metaOf item
  let p ← propsOf m
  let errors := metaResErrors m
  let warnings := metaResWarnings m
  let pass : Item := { item with warnings := some warnings, errors := some errors }
  match p.wsi with
  | none => return pass
  | some w =>
    if w = "" then return pass
    else if check_valid_wsi reg w = false then
      return { item with
               warnings := some (warnings ++ [not_in_list_msg w]),
               errors := some errors,
               payloads := delKey "bufr4" item.payloads }
    else
      match m.geometry, get_geometry reg w with
      | some gd, some gs =>
        (match gd.coordinates, gs.coordinates with
        | some dc, some sc =>
          if dc.length < 2 ∨ sc.length < 2 then Except.error (PyExc.valueError "not enough values to unpack")
          else
            let sLon := sc.getD 0 0
            let sLat := sc.getD 1 0
            let dLon := dc.getD 0 0
            let dLat := dc.getD 1 0
            let d := geo.geodesicMeters (sLat, sLon) (dLat, dLon)
            if d > threshold then
              return { item with
                       warnings := some (warnings ++ [distance_msg w (geo.render2 d)]),
                       errors := some errors,
                       payloads := delKey "bufr4" item.payloads }
            else return pass
        | _, _ => return pass)
      | _, _ => Except.error PyExc.attributeError

/-- Rendering of a Python exception inside an f-string. -/
def pyExcMsg : PyExc → String
  | .keyError k => "'" ++ k ++ "'"
  | .valueError s => s
  | .attributeError => "AttributeError"
  | .typeError => "TypeError"
  | .binasciiError => "binascii.Error"
  | .invalidSignature => "InvalidSignature"

/-- The dummy item appended when the validation loop raises (csv2bufr.py
lines 235-241). -/
def dummy_error_item (e : PyExc) : Item :=
  { payloads := [],
    meta := none,
    warnings := some [],
    errors := some ["Error processing item: " ++ pyExcMsg e] }

/-- The `try`/`for item in bufr_generator` loop of
`CSVPublishProcessor.execute` (csv2bufr.py lines 188-241): items are
validated in order; the first exception replaces the remaining items with
a single dummy error item and ends the loop. -/
def execute_validate_loop (reg : StationRegistry) (threshold : Rat)
    (geo : GeoCtx) : List Item → List Item
  | [] => []
  | it :: rest =>
    match execute_validate_item reg threshold geo it with
    | .ok it1 => it1 :: execute_validate_loop reg threshold geo rest
    | .error e => [dummy_error_item e]

/-- The wire message built by `send_data_notification_request` (handle.py
lines 181-186). -/
structure NotifMsg where
  eventName : String
  filename : String
  base64_encoded_data : String
  channel : String
  deriving DecidableEq, Repr

/-- The broker collaborators: base64 encoding of payload bytes (total on
`bytes`) and whether `publish.single` on `wis2box/requests` succeeds for a
given message. -/
structure Broker where
  b64encode : Bytes → String
  publishOk : NotifMsg → Bool

/-- `DataHandler.send_data_notification_request` (handle.py lines
167-205): builds the `DataNotificationRequest` message and publishes it;
returns `'success'` or an error string. The built message is returned too,
so dispatches are observable. -/
def send_data_notification_request (br : Broker) (channel : String)
    (data : Bytes) (filename : String) : String × NotifMsg :=
  let msg : NotifMsg :=
    { eventName := "DataNotificationRequest",
      filename := filename,
      base64_encoded_data := br.b64encode data,
      channel := channel }
  (if br.publishOk msg then "success" else "Error publishing message", msg)

/-- `f'No data returned ...'` (handle.py lines 137-140): note the extra
`for` and the placeholder when `wsi` is falsy. -/
def no_data_msg (wsi : Option String) (ddate : String) : String :=
  if wsiTruthy wsi then
    "No data returned WSI=" ++ wsi.getD "" ++ " and timestamp=" ++ ddate
  else
    "No data returned for WSI=(no WSI found) and timestamp=" ++ ddate

/-- The `for fmt, the_data in item.items()` loop (handle.py lines
129-147), over the payload keys (the `_meta`/`errors`/`warnings` keys are
skipped by the first test): unknown formats are skipped, a `None` payload
appends an error, a real payload is dispatched when `notify` is set.
Returns the errors appended and the notifications sent. -/
def fmt_loop (notify : Bool) (channel : String) (br : Broker)
    (wsi : Option String) (identifier ddate : String) :
    List (String × Option Bytes) → List String × List NotifMsg
  | [] => ([], [])
  | (fmt, v) :: rest =>
    if fmt ∈ ["_meta", "errors", "warnings"] then
      fmt_loop notify channel br wsi identifier ddate rest
    else if fmt ∉ mimeKeys then
      fmt_loop notify channel br wsi identifier ddate rest
    else
      match v with
      | none =>
        let (es, ms) := fmt_loop notify channel br wsi identifier ddate rest
        (no_data_msg wsi ddate :: es, ms)
      | some d =>
        if notify then
          let (_res, msg) := send_data_notification_request br channel d (identifier ++ "." ++ fmt)
          let (es, ms) := fmt_loop notify channel br wsi identifier ddate rest
          (es, msg :: ms)
        else fmt_loop notify channel br wsi identifier ddate rest

/-- The body of the second `for item in data_items` loop of
`DataHandler.process_items` (handle.py lines 117-147) for one item: the
`_meta` reads (each a potential `KeyError`), the `result` code check
(`continue` on non-1 codes after reading `message`), then the format
loop. -/
def process_one_item (notify : Bool) (channel : String) (br : Broker)
    (it : Item) : Except PyExc (List String × List NotifMsg) := do
  let m ← metaOf it
  let p ← propsOf m
  let wsi := p.wsi
  let identifier ← match m.id with
    | none => Except.error (PyExc.keyError "id")
    | some i => Except.ok i
  let ddate ← match p.datetime with
    | none => Except.error (PyExc.keyError "datetime")
    | some d => Except.ok d
  let skip ← match m.result with
    | none => Except.ok false
    | some r =>
      match r.code with
      | none => Except.error (PyExc.keyError "code")
      | some c =>
        if c ≠ 1 then
          match r.message with
          | none => Except.error (PyExc.keyError "message")
          | some _ => Except.ok true
        else Except.ok false
  if skip then return ([], [])
  else return fmt_loop notify channel br wsi identifier ddate it.payloads

/-- The second loop of `process_items` over all of `data_items`,
concatenating the appended errors and the sent notifications. -/
def process_data_items (notify : Bool) (channel : String) (br : Broker) :
    List Item → Except PyExc (List String × List NotifMsg)
  | [] => .ok ([], [])
  | it :: rest =>
    match process_one_item notify channel br it with
    | .error e => .error e
    | .ok (es, ms) =>
      match process_data_items notify channel br rest with
      | .error e => .error e
      | .ok (es1, ms1) => .ok (es ++ es1, ms ++ ms1)

/-- Concatenation of a per-record list over the batch, in order (the first
loop of `process_items`). -/
def collectAll (f : Item → List String) : List Item → List String
  | [] => []
  | it :: rest => f it ++ collectAll f rest

/-- The `outputs` dict returned by `process_items` (handle.py lines
156-163): `data_items` is the `data` list, which is never appended to. -/
structure AggOutputs where
  result : String
  transformed : Nat
  published : Nat
  data_items : List String
  errors : List String
  warnings : List String
  deriving DecidableEq, Repr

/-- `DataHandler.process_items` (handle.py lines 79-165): first loop
counts `data_converted` and collects per-record errors/warnings; second
loop processes the records that carried a format key; `data_published` is
initialized to 0 (line 99) and never incremented; classification at lines
149-154. Returns the outputs and the notifications sent. -/
def process_items (notify : Bool) (channel : String) (br : Broker)
    (output_items : List Item) : Except PyExc (AggOutputs × List NotifMsg) :=
  let data_items := output_items.filter (fun it => hasFmtKey it)
  let data_converted := data_items.length
  let data_published : Nat := 0
  let errors0 := collectAll itemErrors output_items
  let warnings0 := collectAll itemWarnings output_items
  match process_data_items notify channel br data_items with
  | .error e => .error e
  | .ok (extraErrors, sent) =>
    let errors := errors0 ++ extraErrors
    let warnings := warnings0
    let result :=
      if data_converted > 0 ∧ errors = [] ∧ warnings = [] then "success"
      else if data_converted = 0 then "failure"
      else "partial success"
    .ok ({ result := result,
           transformed := data_converted,
           published := data_published,
           data_items := [],
           errors := errors,
           warnings := warnings }, sent)

/-- `CSVPublishProcessor.execute` after the CSV→BUFR transform (csv2bufr.py
lines 188-243): validate each transform item, then hand the batch to
`DataHandler.process_items`. -/
def csv_publish_execute (reg : StationRegistry) (threshold : Rat)
    (geo : GeoCtx) (notify : Bool) (channel : String) (br : Broker)
    (items : List Item) : Except PyExc (AggOutputs × List NotifMsg) :=
  process_items notify channel br (execute_validate_loop reg threshold geo items)

/-! ## Concrete fixtures used by the theorems -/

/-- A broker whose publishes always succeed. -/
def br0 : Broker := { b64encode := fun _ => "QUJD", publishOk := fun _ => true }

/-- A relay world with benign external collaborators. -/
def w0 : SnsWorld :=
  { httpGet := fun _ => .ok (),
    b64Ok := fun _ => true,
    sigValid := fun _ _ => true,
    parseMessage := fun _ => .ok none,
    storagePublishOk := true,
    storageIncoming := "wis2box-incoming",
    storagePublic := "wis2box-public" }

/-- Geodesic oracle for the C1 scenario: geopy's distance between
(47.77706163, 23.94046026) and (47.77706163, 33.94046026) is
748940.72 m after rounding to 2 decimals, as recorded in the repository's
own integration test. -/
def geo1 : GeoCtx :=
  { geodesicMeters := fun _ _ => Rat.mk' 18723518 25,
    render2 := fun _ => "748940.72" }

/-- Station 0-20000-0-15015 at longitude 23.94046026, latitude
47.77706163 (GeoJSON coordinate order is `[lon, lat]`). -/
def st1 : Geometry :=
  { coordinates := some [(2394046026 : Rat) / 100000000, (4777706163 : Rat) / 100000000] }

/-- Registry holding exactly station 0-20000-0-15015. -/
def reg1 : StationRegistry := [("0-20000-0-15015", st1)]

/-- The C1 scenario item: WSI 0-20000-0-15015, data location at longitude
33.94046026, latitude 47.77706163, one `bufr4` payload. -/
def c1_item : Item :=
  { payloads := [("bufr4", some [0])],
    meta := some
      { id := some "WIGOS_0-20000-0-15015_20220331T000000",
        properties := some
          { wsi := some "0-20000-0-15015", datetime := some "2022-03-31T00:00:00+00:00" },
        geometry := some
          { coordinates := some [(3394046026 : Rat) / 100000000, (4777706163 : Rat) / 100000000] },
        result := none },
    errors := none,
    warnings := none }

/-- A well-formed single-payload item whose publish succeeds. -/
def c2_item : Item :=
  { payloads := [("bufr4", some [1, 2])],
    meta := some
      { id := some "A",
        properties := some { wsi := some "0-1", datetime := some "T" },
        geometry := none,
        result := none },
    errors := none,
    warnings := none }

/-- A transformed item that carries one warning. -/
def c3_item : Item :=
  { payloads := [("bufr4", some [1])],
    meta := some
      { id := some "i",
        properties := some { wsi := none, datetime := some "d" },
        geometry := none,
        result := none },
    errors := some [],
    warnings := some ["w"] }

/-- An item with a format payload but no `_meta` block at all. -/
def c7_item : Item :=
  { payloads := [("bufr4", some [0])], meta := none, errors := none, warnings := none }

/-- The 55-character URL accepted by the code's prefix/suffix check but
not decomposable as `https://sns.` ++ mid ++
`.amazonaws.com/SimpleNotificationService.pem`. -/
def overlapUrl : String := "https://sns.amazonaws.com/SimpleNotificationService.pem"

/-! ## Claim theorems -/

/-- Claim C1 (code behaviour at the failing input): on the scenario batch
— WSI 0-20000-0-15015 in the registry, reported location 748940.72 m from
the station, threshold 1000 m — the code emits exactly the claimed
warning and publishedCount 0, but because `del item['bufr4']` removes the
only format key before `process_items` counts transformed records, the
batch outcome is `"failure"` with 0 transformed, not the claimed
`partial_success` (the repository's own integration test expects
`'partial success'` with 1 transformed here). -/
theorem c1_distance_scenario_code_result :
    csv_publish_execute reg1 1000 geo1 true "csv/test" br0 [c1_item] =
      .ok ({ result := "failure",
             transformed := 0,
             published := 0,
             data_items := [],
             errors := [],
             warnings := ["Station 0-20000-0-15015: location reported in data is 748940.72 meters from station-location; skipping"] },
           []) := by
  rfl

/-- Claim C2 (code behaviour at the failing input): a batch with one
well-formed `bufr4` item, notify enabled, and a broker whose publish
succeeds (the dispatched `DataNotificationRequest` is in the trace and
`send_data_notification_request` returned `'success'`) still reports
`messages published` = 0, because `data_published` is initialized at
handle.py line 99 and never incremented. -/
theorem c2_published_count_stays_zero :
    process_items true "ch" br0 [c2_item] =
      .ok ({ result := "success",
             transformed := 1,
             published := 0,
             data_items := [],
             errors := [],
             warnings := [] },
           [{ eventName := "DataNotificationRequest",
              filename := "A.bufr4",
              base64_encoded_data := "QUJD",
              channel := "ch" }]) ∧
    (send_data_notification_request br0 "ch" [1, 2] "A.bufr4").1 = "success" := by
  exact ⟨rfl, rfl⟩

/-- Claim C3, counterexample: on a batch with one transformed item and one
warning the code's outcome literal is `"partial success"` (with a space),
not the claimed `"partial_success"`. -/
theorem c3_outcome_literal_counterexample :
    process_items false "ch" br0 [c3_item] =
      .ok ({ result := "partial success",
             transformed := 1,
             published := 0,
             data_items := [],
             errors := [],
             warnings := ["w"] },
           []) ∧
    "partial success" ≠ "partial_success" := by
  exact ⟨rfl, by decide⟩

/-- Claim C4 (code behaviour at the failing input): the body
`{"Type": "Notification"}` — a Notification envelope with a missing
`SigningCertURL` field — makes the handler raise an uncaught
`KeyError('SigningCertURL')` instead of returning a structured error
object. -/
theorem c4_missing_cert_url_uncaught :
    sns_listener w0 (.ok [("Type", "Notification")]) =
      { fetched := [], response := .error (.keyError "SigningCertURL") } := by
  rfl

set_option maxRecDepth 8000 in
/-- Claim C5, counterexample: the 55-character URL
`https://sns.amazonaws.com/SimpleNotificationService.pem` does not match
the pattern `https://sns.*.amazonaws.com/SimpleNotificationService.pem`
(no middle part can exist, by length), yet the relay fetches the
certificate from it, because the code only checks a prefix and a suffix
that overlap on this URL. -/
theorem c5_fetch_without_pattern_match :
    ¬ matchesSnsPattern overlapUrl ∧
    (verify_sns_signature w0
      [("Type", "Notification"), ("SigningCertURL", overlapUrl),
       ("Signature", "sig")]).fetched = [overlapUrl] := by
  constructor
  · rintro ⟨mid, h⟩
    have hl := congrArg String.length h
    rw [String.length_append, String.length_append] at hl
    have e1 : overlapUrl.length = 55 := rfl
    have e2 : ("https://sns." : String).length = 12 := rfl
    have e3 : (".amazonaws.com/SimpleNotificationService.pem" : String).length = 44 := rfl
    rw [e1, e2, e3] at hl
    omega
  · rfl

/-- Claim C7, counterexample: an item carrying a `bufr4` key but no
`_meta` block makes `process_items` raise an uncaught `KeyError('_meta')`
(handle.py line 119 indexes `item['_meta']['properties']` with no
try/except), so the batch aborts instead of degrading the item. -/
theorem c7_missing_meta_throws :
    process_items true "ch" br0 [c7_item] = .error (.keyError "_meta") := by
  rfl

/-! ## Shared proof helpers -/

/-- Reduction of a successful `Except` bind. -/
theorem except_bind_ok {α β ε : Type} (a : α) (f : α → Except ε β) :
    (Except.ok a : Except ε α) >>= f = f a := rfl

/-- `pure` on `Except` is `Except.ok`. -/
theorem except_pure_eq {α ε : Type} (a : α) : (pure a : Except ε α) = Except.ok a := rfl

/-- Appending the empty string on the left. -/
theorem str_empty_append (s : String) : "" ++ s = s := rfl

/-- Claim C6: for every `Notification` envelope whose `Message`,
`MessageId`, `Timestamp` and `TopicArn` fields are present, the canonical
string to sign is the concatenation of the `{field}\n{value}\n` blocks in
exactly the order Message, MessageId, Subject (only when present),
Timestamp, TopicArn, Type — and nothing else. -/
theorem c6_canonical_string (msg : Dict) (m mid ts arn : String)
    (h1 : dget msg "Type" = some "Notification")
    (h2 : dget msg "Message" = some m)
    (h3 : dget msg "MessageId" = some mid)
    (h4 : dget msg "Timestamp" = some ts)
    (h5 : dget msg "TopicArn" = some arn) :
    build_string_to_sign msg = .ok
      (match dget msg "Subject" with
       | some s =>
         sigBlock "Message" m ++ sigBlock "MessageId" mid ++ sigBlock "Subject" s ++
           sigBlock "Timestamp" ts ++ sigBlock "TopicArn" arn ++ sigBlock "Type" "Notification"
       | none =>
         sigBlock "Message" m ++ sigBlock "MessageId" mid ++
           sigBlock "Timestamp" ts ++ sigBlock "TopicArn" arn ++ sigBlock "Type" "Notification") := by
  cases hs : dget msg "Subject" with
  | none =>
    simp only [build_string_to_sign, h1, fieldList, hs, Option.isSome_none, Bool.false_eq_true,
      if_false, if_true, List.append_nil, List.nil_append, List.cons_append]
    simp only [joinFields, h1, h2, h3, h4, h5, hs]
    simp only [sigBlock, String.append_assoc, str_empty_append]
  | some s =>
    simp only [build_string_to_sign, h1, fieldList, hs, Option.isSome_some, if_true,
      List.append_nil, List.nil_append, List.cons_append]
    simp only [joinFields, h1, h2, h3, h4, h5, hs]
    simp only [sigBlock, String.append_assoc, str_empty_append]

/-- An envelope with all mandatory fields and no `Subject`. -/
def c6_msg : Dict :=
  [("Type", "Notification"), ("Message", "m1"), ("MessageId", "id1"),
   ("Timestamp", "t1"), ("TopicArn", "arn1")]

/-- Witness for C6 at a concrete envelope. -/
theorem c6_canonical_string_witness :
    build_string_to_sign c6_msg = .ok
      (sigBlock "Message" "m1" ++ sigBlock "MessageId" "id1" ++
        sigBlock "Timestamp" "t1" ++ sigBlock "TopicArn" "arn1" ++
        sigBlock "Type" "Notification") :=
  c6_canonical_string c6_msg "m1" "id1" "t1" "arn1" rfl rfl rfl rfl rfl

/-- A distance collaborator that never trips the threshold. -/
def geo0 : GeoCtx := { geodesicMeters := fun _ _ => 0, render2 := fun _ => "0.0" }

/-- Claim C8: an item whose WIGOS identifier is present (truthy) but not
in the station registry is soft-rejected: the item is kept (`.ok`), its
`bufr4` payload is deleted, and exactly one warning — `Station {id} not in
station list; skipping` — is appended to the item's carried-over result
warnings. -/
theorem c8_unknown_station_warning (reg : StationRegistry) (thr : Rat) (geo : GeoCtx)
    (item : Item) (m : Meta) (p : MetaProps) (w : String)
    (hm : item.meta = some m) (hp : m.properties = some p) (hw : p.wsi = some w)
    (hne : w ≠ "") (hreg : check_valid_wsi reg w = false) :
    execute_validate_item reg thr geo item =
      .ok { item with
            warnings := some (metaResWarnings m ++ [not_in_list_msg w]),
            errors := some (metaResErrors m),
            payloads := delKey "bufr4" item.payloads } := by
  simp [execute_validate_item, metaOf, propsOf, except_bind_ok, except_pure_eq,
    hm, hp, hw, hne, hreg]

/-- Properties block of the C8 witness item. -/
def c8_props : MetaProps := { wsi := some "0-1", datetime := some "D" }

/-- Meta block of the C8 witness item. -/
def c8_meta : Meta :=
  { id := some "X", properties := some c8_props, geometry := none, result := none }

/-- The C8 witness item: a `bufr4` payload and an unknown station. -/
def c8_item : Item :=
  { payloads := [("bufr4", some [7])], meta := some c8_meta, errors := none, warnings := none }

/-- Witness for C8: empty registry, station `0-1`. -/
theorem c8_unknown_station_warning_witness :
    execute_validate_item [] 0 geo0 c8_item =
      .ok { payloads := [],
            meta := some c8_meta,
            errors := some [],
            warnings := some ["Station 0-1 not in station list; skipping"] } :=
  c8_unknown_station_warning [] 0 geo0 c8_item c8_meta c8_props "0-1" rfl rfl rfl
    (by decide) rfl

/-- Claim C9: an item that carries no (truthy) WIGOS identifier is
accepted unconditionally — its payloads are retained, only the carried
result errors/warnings are attached, and the outcome does not depend on
the registry, the threshold or the distance collaborator (neither check
runs). -/
theorem c9_no_wsi_accepted (regA regB : StationRegistry) (thrA thrB : Rat)
    (geoA geoB : GeoCtx) (item : Item) (m : Meta) (p : MetaProps)
    (hm : item.meta = some m) (hp : m.properties = some p)
    (hw : wsiTruthy p.wsi = false) :
    execute_validate_item regA thrA geoA item =
      .ok { item with
            warnings := some (metaResWarnings m),
            errors := some (metaResErrors m) } ∧
    execute_validate_item regA thrA geoA item =
      execute_validate_item regB thrB geoB item := by
  match hcase : p.wsi with
  | none =>
    constructor
    · simp [execute_validate_item, metaOf, propsOf, except_bind_ok, except_pure_eq,
        hm, hp, hcase]
    · simp [execute_validate_item, metaOf, propsOf, except_bind_ok, except_pure_eq,
        hm, hp, hcase]
  | some w =>
    have hempty : w = "" := by
      by_contra hne
      simp [wsiTruthy, hcase, hne] at hw
    subst hempty
    constructor
    · simp [execute_validate_item, metaOf, propsOf, except_bind_ok, except_pure_eq,
        hm, hp, hcase]
    · simp [execute_validate_item, metaOf, propsOf, except_bind_ok, except_pure_eq,
        hm, hp, hcase]

/-- Properties block of the C9 witness item (no identifier). -/
def c9_props : MetaProps := { wsi := none, datetime := some "D" }

/-- Meta block of the C9 witness item. -/
def c9_meta : Meta :=
  { id := some "Y", properties := some c9_props, geometry := none, result := none }

/-- The C9 witness item: a `bufr4` payload and no identifier. -/
def c9_item : Item :=
  { payloads := [("bufr4", some [3])], meta := some c9_meta, errors := none, warnings := none }

/-- Witness for C9 against two different validation contexts. -/
theorem c9_no_wsi_accepted_witness :
    execute_validate_item [] 0 geo0 c9_item =
      .ok { payloads := [("bufr4", some [3])],
            meta := some c9_meta,
            errors := some [],
            warnings := some [] } ∧
    execute_validate_item [] 0 geo0 c9_item =
      execute_validate_item reg1 1000 geo1 c9_item :=
  c9_no_wsi_accepted [] reg1 0 1000 geo0 geo1 c9_item c9_meta c9_props rfl rfl rfl

/-- Claim C5 (amended): a certificate is only ever fetched from a URL that
passes the code's prefix/suffix allow-list check, and a `Notification`
envelope whose `SigningCertURL` fails that check is rejected with 400
before any network fetch. (The check coincides with the spec's URL
pattern except on the single 55-character overlap URL, see the
counterexample.) -/
theorem c5_cert_url_gate (w : SnsWorld) (msg : Dict) (u sgn : String)
    (hu : dget msg "SigningCertURL" = some u)
    (hs : dget msg "Signature" = some sgn) :
    (∀ f ∈ (verify_sns_signature w msg).fetched, cert_url_allowed f = true) ∧
    (cert_url_allowed u = false →
      notification_branch w msg =
        { fetched := [], response := .ok (400, "SNS signature verification failed") }) := by
  cases hca : cert_url_allowed u with
  | false =>
    constructor
    · simp [verify_sns_signature, hu, hs, hca]
    · intro _
      simp [notification_branch, verify_sns_signature, hu, hs, hca]
  | true =>
    constructor
    · simp only [verify_sns_signature, hu, hs, hca, Bool.true_eq_false, if_false]
      cases w.httpGet u with
      | error e => simp [hca]
      | ok _ =>
        cases hb : w.b64Ok sgn with
        | false => simp [hca]
        | true =>
          simp only [hb, if_false, Bool.true_eq_false]
          cases build_string_to_sign msg with
          | error e => simp [hca]
          | ok s =>
            cases hv : w.sigValid sgn s with
            | false => simp [hv, hca]
            | true => simp [hv, hca]
    · intro hfalse
      exact absurd hfalse (by decide)

/-- A `Notification` envelope pointing at a non-AWS certificate URL. -/
def c5_msg : Dict :=
  [("Type", "Notification"), ("SigningCertURL", "http://attacker.example/cert.pem"),
   ("Signature", "sig")]

/-- Witness for C5: a non-allow-listed URL is rejected with 400 and
nothing is fetched. -/
theorem c5_cert_url_gate_witness :
    notification_branch w0 c5_msg =
      { fetched := [], response := .ok (400, "SNS signature verification failed") } :=
  (c5_cert_url_gate w0 c5_msg "http://attacker.example/cert.pem" "sig" rfl rfl).2 rfl

/-! ## Aggregator lemmas (process_items) -/

/-- Per-item well-formedness of the `_meta` block as read by
`process_items`: an `id`, `properties.datetime`, and when a `result` block
is present its `code` (and a `message` when the code is not 1). -/
def wfMeta (it : Item) : Bool :=
  match it.meta with
  | none => false
  | some m =>
    m.id.isSome &&
    (match m.properties with
     | none => false
     | some p => p.datetime.isSome) &&
    (match m.result with
     | none => true
     | some r =>
       match r.code with
       | none => false
       | some c => c == 1 || r.message.isSome)

/-- An item is well formed for aggregation when it carries no format key
(only its `errors`/`warnings` are read) or its `_meta` block is well
formed. -/
def wellFormedItem (it : Item) : Bool := !hasFmtKey it || wfMeta it

/-- The errors one data item contributes in the second loop. -/
def extraErrs (notify : Bool) (ch : String) (br : Broker) (it : Item) : List String :=
  match process_one_item notify ch br it with
  | .ok (es, _) => es
  | .error _ => []

/-- A collected list is empty exactly when every item contributes
nothing. -/
theorem collectAll_eq_nil (f : Item → List String) (l : List Item) :
    collectAll f l = [] ↔ ∀ it ∈ l, f it = [] := by
  induction l with
  | nil => simp [collectAll]
  | cons it rest ih => simp [collectAll, ih]

/-- A data item with a well-formed `_meta` block never raises in the
second loop of `process_items`. -/
theorem process_one_item_ok_of_wfMeta (notify : Bool) (ch : String) (br : Broker)
    (it : Item) (h : wfMeta it = true) :
    ∃ v, process_one_item notify ch br it = .ok v := by
  match hm : it.meta with
  | none => simp [wfMeta, hm] at h
  | some m =>
    match hp : m.properties with
    | none => simp [wfMeta, hm, hp] at h
    | some p =>
      match hid : m.id with
      | none => simp [wfMeta, hm, hid] at h
      | some idv =>
        match hd : p.datetime with
        | none => simp [wfMeta, hm, hp, hid, hd] at h
        | some dv =>
          match hr : m.result with
          | none =>
            exact ⟨fmt_loop notify ch br p.wsi idv dv it.payloads, by
              simp [process_one_item, metaOf, propsOf, except_bind_ok, except_pure_eq,
                hm, hp, hid, hd, hr]⟩
          | some r =>
            match hc : r.code with
            | none => simp [wfMeta, hm, hp, hid, hd, hr, hc] at h
            | some c =>
              by_cases hc1 : c = 1
              · exact ⟨fmt_loop notify ch br p.wsi idv dv it.payloads, by
                  simp [process_one_item, metaOf, propsOf, except_bind_ok, except_pure_eq,
                    hm, hp, hid, hd, hr, hc, hc1]⟩
              · match hms : r.message with
                | none => simp [wfMeta, hm, hp, hid, hd, hr, hc, hms, hc1] at h
                | some msgv =>
                  exact ⟨([], []), by
                    simp [process_one_item, metaOf, propsOf, except_bind_ok, except_pure_eq,
                      hm, hp, hid, hd, hr, hc, hc1, hms]⟩

/-- The second loop never raises over a list of well-formed data items. -/
theorem process_data_items_ok_of_wf (notify : Bool) (ch : String) (br : Broker)
    (l : List Item) (h : ∀ it ∈ l, wfMeta it = true) :
    ∃ es ms, process_data_items notify ch br l = .ok (es, ms) := by
  induction l with
  | nil => exact ⟨[], [], rfl⟩
  | cons it rest ih =>
    obtain ⟨⟨es1, ms1⟩, h1⟩ :=
      process_one_item_ok_of_wfMeta notify ch br it (h it (by simp))
    obtain ⟨es2, ms2, h2⟩ := ih (fun x hx => h x (by simp [hx]))
    refine ⟨es1 ++ es2, ms1 ++ ms2, ?_⟩
    simp [process_data_items, h1, h2]

/-- On success, the second loop's appended errors are the concatenation of
every item's contribution, in order. -/
theorem process_data_items_ok_errors (notify : Bool) (ch : String) (br : Broker) :
    ∀ (l : List Item) (es : List String) (ms : List NotifMsg),
      process_data_items notify ch br l = .ok (es, ms) →
      es = collectAll (extraErrs notify ch br) l := by
  intro l
  induction l with
  | nil =>
    intro es ms h
    simp [process_data_items] at h
    simp [collectAll, h.1.symm]
  | cons it rest ih =>
    intro es ms h
    match hpi : process_one_item notify ch br it with
    | .error e => rw [process_data_items, hpi] at h; simp at h
    | .ok (es1, ms1) =>
      match hrest : process_data_items notify ch br rest with
      | .error e => rw [process_data_items, hpi, hrest] at h; simp at h
      | .ok (es2, ms2) =>
        rw [process_data_items, hpi, hrest] at h
        have hes : es = es1 ++ es2 := by
          injection h with h'
          exact (congrArg Prod.fst h').symm
        have h1 : extraErrs notify ch br it = es1 := by rw [extraErrs, hpi]
        subst hes
        simp only [collectAll, h1, ih es2 ms2 hrest]

/-- Inversion of a successful `process_items` run: the counters come from
the first loop, `messages published` is 0, the errors are the collected
record errors followed by the second loop's additions, the warnings are
the collected record warnings, and the result is classified from them as
at handle.py lines 149-154. -/
theorem process_items_ok_spec (notify : Bool) (ch : String) (br : Broker)
    (items : List Item) (o : AggOutputs) (t : List NotifMsg)
    (h : process_items notify ch br items = .ok (o, t)) :
    o.transformed = (items.filter fun it => hasFmtKey it).length ∧
    o.published = 0 ∧
    o.errors = collectAll itemErrors items ++
      collectAll (extraErrs notify ch br) (items.filter fun it => hasFmtKey it) ∧
    o.warnings = collectAll itemWarnings items ∧
    o.result =
      (if o.transformed > 0 ∧ o.errors = [] ∧ o.warnings = [] then "success"
       else if o.transformed = 0 then "failure"
       else "partial success") := by
  match hpd : process_data_items notify ch br (items.filter fun it => hasFmtKey it) with
  | .error e =>
    rw [process_items] at h
    rw [hpd] at h
    simp at h
  | .ok (es, ms) =>
    rw [process_items] at h
    rw [hpd] at h
    have hes := process_data_items_ok_errors notify ch br _ es ms hpd
    injection h with h'
    have ho : _ = o := congrArg Prod.fst h'
    have ht : ms = t := congrArg Prod.snd h'
    subst ho
    refine ⟨rfl, rfl, ?_, rfl, ?_⟩
    · rw [← hes]
    · rfl

/-- Claim C7 (amended): `process_items` never raises over a batch whose
items are well formed (every item carrying a format key has a `_meta`
block with id, datetime and a readable result code/message); the returned
errors and warnings are the per-item contributions concatenated, so every
item-level failure is ledgered and processing covers the whole batch. -/
theorem c7_no_throw_when_meta_wellformed (notify : Bool) (ch : String) (br : Broker)
    (items : List Item) (hwf : ∀ it ∈ items, wellFormedItem it = true) :
    ∃ o t, process_items notify ch br items = .ok (o, t) ∧
      o.errors = collectAll itemErrors items ++
        collectAll (extraErrs notify ch br) (items.filter fun it => hasFmtKey it) ∧
      o.warnings = collectAll itemWarnings items := by
  have hwf' : ∀ it ∈ (items.filter fun it => hasFmtKey it), wfMeta it = true := by
    intro it hmem
    rw [List.mem_filter] at hmem
    have := hwf it hmem.1
    rw [wellFormedItem, hmem.2] at this
    simpa using this
  obtain ⟨es, ms, hpd⟩ := process_data_items_ok_of_wf notify ch br _ hwf'
  have hmain : ∃ o t, process_items notify ch br items = .ok (o, t) := by
    rw [process_items, hpd]
    exact ⟨_, _, rfl⟩
  obtain ⟨o, t, hmain⟩ := hmain
  obtain ⟨_, _, herr, hwarn, _⟩ := process_items_ok_spec notify ch br items o t hmain
  exact ⟨o, t, hmain, herr, hwarn⟩

/-- The C7 witness item: well formed, with a `None` `bufr4` payload that
must degrade into a `No data returned ...` error entry. -/
def c7w_item : Item :=
  { payloads := [("bufr4", none)],
    meta := some
      { id := some "Z",
        properties := some { wsi := some "0-2", datetime := some "T2" },
        geometry := none,
        result := none },
    errors := some [],
    warnings := some [] }

/-- Witness for C7 (amended) on a concrete well-formed batch. -/
theorem c7_no_throw_when_meta_wellformed_witness :
    ∃ o t, process_items true "ch" br0 [c7w_item] = .ok (o, t) ∧
      o.errors = collectAll itemErrors [c7w_item] ++
        collectAll (extraErrs true "ch" br0) ([c7w_item].filter fun it => hasFmtKey it) ∧
      o.warnings = collectAll itemWarnings [c7w_item] :=
  c7_no_throw_when_meta_wellformed true "ch" br0 [c7w_item] (by
    intro it hm
    rw [List.mem_singleton] at hm
    subst hm
    decide)

/-- Claim C3 (amended): the batch outcome is a pure function of the final
transformed count and the final errors/warnings lists, with precedence
`failure` when nothing was transformed (even with errors or warnings),
then `success` when both ledgers are empty, else the literal
`partial success` (the code spells it with a space); and the
classification is invariant under permutation of the batch. -/
theorem c3_outcome_classification (notify : Bool) (ch : String) (br : Broker)
    (items items' : List Item) (o o' : AggOutputs) (t t' : List NotifMsg)
    (hperm : items.Perm items')
    (h : process_items notify ch br items = .ok (o, t))
    (h' : process_items notify ch br items' = .ok (o', t')) :
    o.result = o'.result ∧
    o.result =
      (if o.transformed = 0 then "failure"
       else if o.errors = [] ∧ o.warnings = [] then "success"
       else "partial success") := by
  obtain ⟨hn, _, herr, hwarn, hres⟩ := process_items_ok_spec notify ch br items o t h
  obtain ⟨hn', _, herr', hwarn', hres'⟩ := process_items_ok_spec notify ch br items' o' t' h'
  have hfilter : (items.filter fun it => hasFmtKey it).Perm
      (items'.filter fun it => hasFmtKey it) := hperm.filter _
  have htrans : o.transformed = o'.transformed := by
    rw [hn, hn', hfilter.length_eq]
  have heiff : (o.errors = []) ↔ (o'.errors = []) := by
    rw [herr, herr', List.append_eq_nil, List.append_eq_nil,
      collectAll_eq_nil, collectAll_eq_nil, collectAll_eq_nil, collectAll_eq_nil]
    constructor
    · rintro ⟨ha, hb⟩
      exact ⟨fun it hm => ha it (hperm.mem_iff.mpr hm),
             fun it hm => hb it (hfilter.mem_iff.mpr hm)⟩
    · rintro ⟨ha, hb⟩
      exact ⟨fun it hm => ha it (hperm.mem_iff.mp hm),
             fun it hm => hb it (hfilter.mem_iff.mp hm)⟩
  have hwiff : (o.warnings = []) ↔ (o'.warnings = []) := by
    rw [hwarn, hwarn', collectAll_eq_nil, collectAll_eq_nil]
    constructor
    · intro ha it hm
      exact ha it (hperm.mem_iff.mpr hm)
    · intro ha it hm
      exact ha it (hperm.mem_iff.mp hm)
  have hform : ∀ (oo : AggOutputs),
      oo.result =
        (if oo.transformed > 0 ∧ oo.errors = [] ∧ oo.warnings = [] then "success"
         else if oo.transformed = 0 then "failure"
         else "partial success") →
      oo.result =
        (if oo.transformed = 0 then "failure"
         else if oo.errors = [] ∧ oo.warnings = [] then "success"
         else "partial success") := by
    intro oo hh
    rw [hh]
    by_cases h0 : oo.transformed = 0
    · simp [h0]
    · have hpos : oo.transformed > 0 := Nat.pos_of_ne_zero h0
      by_cases he : oo.errors = []
      · by_cases hw : oo.warnings = []
        · simp [h0, he, hw, hpos]
        · simp [h0, he, hw, hpos]
      · simp [h0, he, hpos]
  have hco := hform o hres
  have hco' := hform o' hres'
  refine ⟨?_, hco⟩
  rw [hco, hco', htrans]
  exact if_congr Iff.rfl rfl (if_congr (and_congr heiff hwiff) rfl rfl)

/-- The outputs `process_items` computes on the C3 batch. -/
def c3_out : AggOutputs :=
  { result := "partial success", transformed := 1, published := 0,
    data_items := [], errors := [], warnings := ["w"] }

/-- Witness for C3 (amended) at a concrete batch. -/
theorem c3_outcome_classification_witness :
    c3_out.result = c3_out.result ∧
    c3_out.result =
      (if c3_out.transformed = 0 then "failure"
       else if c3_out.errors = [] ∧ c3_out.warnings = [] then "success"
       else "partial success") :=
  c3_outcome_classification false "ch" br0 [c3_item] [c3_item] c3_out c3_out [] []
    (List.Perm.refl _) rfl rfl

/-- Properties block of the C10 item family. -/
def c10_props (w dt : String) : MetaProps := { wsi := some w, datetime := some dt }

/-- Meta block of the C10 item family (clean transform result). -/
def c10_meta (w idv dt : String) (mgeom : Option Geometry) : Meta :=
  { id := some idv, properties := some (c10_props w dt), geometry := mgeom, result := none }

/-- An item that carries both a `bufr4` and a `geojson` payload. -/
def c10_item (w idv dt : String) (b g : Bytes) (mgeom : Option Geometry) : Item :=
  { payloads := [("bufr4", some b), ("geojson", some g)],
    meta := some (c10_meta w idv dt mgeom), errors := none, warnings := none }

/-- The same item after a validation rejection: only `bufr4` removed, meta
untouched, one warning attached. -/
def c10_rejected (w idv dt : String) (g : Bytes) (mgeom : Option Geometry)
    (warn : String) : Item :=
  { payloads := [("geojson", some g)],
    meta := some (c10_meta w idv dt mgeom), errors := some [], warnings := some [warn] }

/-- Claim C10: when validation rejects an item (unknown station, or
distance over threshold), only the `bufr4` key is deleted — the `geojson`
payload, the meta block and the carried errors are unchanged — and the
aggregator still dispatches the surviving `geojson` payload of the
rejected item (one `DataNotificationRequest` with filename
`{id}.geojson`). -/
theorem c10_rejection_frame (reg : StationRegistry) (thr : Rat) (geo : GeoCtx)
    (ch : String) (br : Broker) (w idv dt : String) (b g : Bytes)
    (mgeom : Option Geometry) (hne : w ≠ "") :
    (check_valid_wsi reg w = false →
      execute_validate_item reg thr geo (c10_item w idv dt b g mgeom) =
        .ok (c10_rejected w idv dt g mgeom (not_in_list_msg w)) ∧
      process_items true ch br [c10_rejected w idv dt g mgeom (not_in_list_msg w)] =
        .ok ({ result := "partial success", transformed := 1, published := 0,
               data_items := [], errors := [],
               warnings := [not_in_list_msg w] },
             [{ eventName := "DataNotificationRequest", filename := idv ++ ".geojson",
                base64_encoded_data := br.b64encode g, channel := ch }])) ∧
    (∀ (dLon dLat sLon sLat : Rat),
      check_valid_wsi reg w = true →
      mgeom = some { coordinates := some [dLon, dLat] } →
      get_geometry reg w = some { coordinates := some [sLon, sLat] } →
      thr < geo.geodesicMeters (sLat, sLon) (dLat, dLon) →
      execute_validate_item reg thr geo (c10_item w idv dt b g mgeom) =
        .ok (c10_rejected w idv dt g mgeom
              (distance_msg w (geo.render2 (geo.geodesicMeters (sLat, sLon) (dLat, dLon)))))) := by
  constructor
  · intro hreg
    constructor
    · simp [execute_validate_item, metaOf, propsOf, except_bind_ok, except_pure_eq,
        c10_item, c10_meta, c10_props, c10_rejected, hne, hreg, delKey,
        metaResErrors, metaResWarnings]
    · simp [process_items, process_data_items, process_one_item, fmt_loop, metaOf, propsOf,
        except_bind_ok, except_pure_eq, hasFmtKey, mimeKeys, collectAll, itemErrors,
        itemWarnings, send_data_notification_request, c10_rejected, c10_meta, c10_props,
        wsiTruthy, String.append_assoc]
  · intro dLon dLat sLon sLat hval hgeo hsg hdist
    subst hgeo
    simp [execute_validate_item, metaOf, propsOf, except_bind_ok, except_pure_eq,
      c10_item, c10_meta, c10_props, c10_rejected, hne, hval, hsg, hdist, delKey,
      metaResErrors, metaResWarnings]

/-- Witness for C10: unknown station against the empty registry; the
`geojson` payload survives and is dispatched. -/
theorem c10_rejection_frame_witness :
    execute_validate_item [] 0 geo0 (c10_item "0-9" "ID9" "T9" [1] [2] none) =
      .ok (c10_rejected "0-9" "ID9" "T9" [2] none (not_in_list_msg "0-9")) ∧
    process_items true "ch" br0 [c10_rejected "0-9" "ID9" "T9" [2] none (not_in_list_msg "0-9")] =
      .ok ({ result := "partial success", transformed := 1, published := 0,
             data_items := [], errors := [],
             warnings := [not_in_list_msg "0-9"] },
           [{ eventName := "DataNotificationRequest", filename := "ID9.geojson",
              base64_encoded_data := br0.b64encode [2], channel := "ch" }]) :=
  (c10_rejection_frame [] 0 geo0 "ch" br0 "0-9" "ID9" "T9" [1] [2] none (by decide)).1 rfl
